import Mathlib

/-!
Verification of the mesos URI-fetcher specification against the code.

Part 1 embeds `stout/internal/windows/longpath.hpp` (present in the
repository): the pure long-path string transform.

Part 2 models the fetcher dispatcher, its four plugins and the docker
manifest/blob orchestration. Their implementation files are not part of
this repository snapshot (only `src/tests/uri_fetcher_tests.cpp`
exercises them), so those definitions are modelled from the spec, and,
where the tests pin down behaviour the spec leaves open, from the tests.
-/

set_option autoImplicit false
set_option maxRecDepth 8192

namespace Mesos

/-! ## Part 1: the long-path transform (`longpath.hpp`) -/

/-- The Windows API path-length limit used by `longpath_internal`
(`max_path_length` in `longpath.hpp`, line 29). -/
def max_path_length : Nat := 248

/-- The long-path marker `\\?\`, the constant from stout's
`os/constants.hpp` that `longpath_internal` prepends.
A wide string is embedded as a `List Char` of its code units. -/
def wLongpathMarker : List Char := ['\\', '\\', '?', '\\']

/-- Embedding of `longpath_internal` (`longpath.hpp`, lines 40-49): prepend
the marker iff the path has length at least `max_path_length`, does not
already start with the marker, and is absolute. `path::absolute` is not in
the repository snapshot, so it is an arbitrary predicate parameter here;
every theorem below holds for all choices of it. -/
def longpath_internal (absolute : List Char → Bool) (path : List Char) : List Char :=
  if max_path_length ≤ path.length ∧
      wLongpathMarker.isPrefixOf path = false ∧
      absolute path = true then
    wLongpathMarker ++ path
  else
    path

theorem marker_isPrefixOf_append (p : List Char) :
    wLongpathMarker.isPrefixOf (wLongpathMarker ++ p) = true := by
  rw [List.isPrefixOf_iff_prefix]
  exact List.prefix_append _ _

/-- C6: `longpath_internal` prepends the long-path marker to `p` iff `p`
has length ≥ 248, is absolute, and does not already start with the marker;
in every other case it returns `p` unchanged. (The transform is a pure
function of the path, so it has no side effects by construction.) -/
theorem longpath_prepends_marker_iff (absolute : List Char → Bool) (p : List Char) :
    (longpath_internal absolute p = wLongpathMarker ++ p ↔
      (max_path_length ≤ p.length ∧
        wLongpathMarker.isPrefixOf p = false ∧
        absolute p = true)) ∧
    (¬ (max_path_length ≤ p.length ∧
        wLongpathMarker.isPrefixOf p = false ∧
        absolute p = true) →
      longpath_internal absolute p = p) := by
  refine ⟨⟨fun h => ?_, fun h => by rw [longpath_internal, if_pos h]⟩,
    fun h => by rw [longpath_internal, if_neg h]⟩
  by_contra hc
  rw [longpath_internal, if_neg hc] at h
  have hlen := congrArg List.length h
  simp [wLongpathMarker] at hlen
  omega

/-- Witness for C6 at a concrete 248-character absolute path and at a short
path. -/
theorem longpath_prepends_marker_iff_witness :
    longpath_internal (fun _ => true) (List.replicate 248 'a') =
      wLongpathMarker ++ List.replicate 248 'a' ∧
    longpath_internal (fun _ => true) ['a', 'b'] = ['a', 'b'] :=
  ⟨(longpath_prepends_marker_iff (fun _ => true) (List.replicate 248 'a')).1.mpr
      (by refine ⟨by decide, by decide, rfl⟩),
   (longpath_prepends_marker_iff (fun _ => true) ['a', 'b']).2 (by decide)⟩

/-- C7: the long-path transform is idempotent: applying it to its own
output changes nothing, for every absoluteness predicate and every path. -/
theorem longpath_idempotent (absolute : List Char → Bool) (p : List Char) :
    longpath_internal absolute (longpath_internal absolute p) =
      longpath_internal absolute p := by
  by_cases h : max_path_length ≤ p.length ∧
      wLongpathMarker.isPrefixOf p = false ∧
      absolute p = true
  · have h1 : longpath_internal absolute p = wLongpathMarker ++ p := by
      rw [longpath_internal, if_pos h]
    rw [h1, longpath_internal, if_neg]
    intro hc
    rw [marker_isPrefixOf_append] at hc
    exact absurd hc.2.1 (by simp)
  · have h1 : longpath_internal absolute p = p := by
      rw [longpath_internal, if_neg h]
    rw [h1, h1]

/-! ## Part 2: the fetcher dispatcher and plugins

The dispatcher, plugin and manifest implementation files are not in this
repository snapshot; only `src/tests/uri_fetcher_tests.cpp` exercises them.
Everything below is therefore modelled from the spec (§3, §4, §6, §7), and
from the tests where they pin the behaviour down. -/

/-- Modelled from the spec (§7): the error kinds of the fetcher. -/
inductive Err
  | unsupportedScheme
  | unknownPlugin
  | configurationError
  | notFound
  | transferError
  | parseError
  | integrityError
  deriving DecidableEq, Repr

/-- Modelled from the spec (§3): the three docker-registry URI sub-kinds. -/
inductive DockerKind
  | manifest
  | blob
  | image
  deriving DecidableEq, Repr

/-- Modelled from the spec (§3): the URI value type, with the registry
sub-kind carried alongside the scheme (the registry plugin matches on it). -/
structure URI where
  scheme : String
  host : Option String := none
  port : Option Nat := none
  path : String := ""
  query : Option String := none
  dockerKind : Option DockerKind := none
  deriving DecidableEq, Repr

/-- Modelled from the spec (§3): one `fsLayers` entry of a SchemaV2 manifest. -/
structure FsLayer where
  blobSum : String
  deriving DecidableEq, Repr

/-- Modelled from the spec (§3): a SchemaV2 image manifest. -/
structure ImageManifestV2 where
  name : String
  tag : String
  schemaVersion : Nat
  fsLayers : List FsLayer
  deriving DecidableEq, Repr

/-- Modelled from the spec (§3): one `layers` entry of a SchemaV2_2 manifest. -/
structure Layer where
  mediaType : String
  size : Nat
  digest : String
  deriving DecidableEq, Repr

/-- Modelled from the spec (§3): a SchemaV2_2 image manifest. -/
structure ImageManifestV2_2 where
  schemaVersion : Nat
  layers : List Layer
  deriving DecidableEq, Repr

/-- Modelled from the spec (§3): the tagged union of the two variants. -/
inductive ImageManifest
  | v2 (m : ImageManifestV2)
  | v2_2 (m : ImageManifestV2_2)
  deriving DecidableEq, Repr

/-- Modelled from the spec (§4.6): a manifest JSON payload, reduced to the
fields the two schema parses inspect. -/
structure Payload where
  schemaVersion : Option Nat := none
  name : Option String := none
  tag : Option String := none
  layers : Option (List Layer) := none
  fsLayers : Option (List FsLayer) := none
  deriving DecidableEq, Repr

/-- Modelled from the spec (§4.6): the SchemaV2_2 parse, which structurally
matches when `schemaVersion == 2` and a `layers` array is present. -/
def parse_v2_2 (p : Payload) : Option ImageManifestV2_2 :=
  match p.schemaVersion, p.layers with
  | some 2, some ls => some ⟨2, ls⟩
  | _, _ => none

/-- Modelled from the spec (§4.6): the SchemaV2 parse, which structurally
matches when `name`, `tag` and an `fsLayers` array are present
(`schemaVersion` possibly 1). -/
def parse_v2 (p : Payload) : Option ImageManifestV2 :=
  match p.name, p.tag, p.fsLayers with
  | some n, some t, some fl => some ⟨n, t, p.schemaVersion.getD 1, fl⟩
  | _, _, _ => none

/-- Modelled from the spec (§4.6): attempt SchemaV2_2 first, fall back to
SchemaV2 when the first parse does not structurally match. -/
def parseManifest (p : Payload) : Option ImageManifest :=
  match parse_v2_2 p with
  | some m => some (.v2_2 m)
  | none => (parse_v2 p).map .v2

/-- The digests of a manifest's layer list: `layers[].digest` for
SchemaV2_2, `fsLayers[].blobSum` for SchemaV2 (spec §4.6). -/
def layerDigests : ImageManifest → List String
  | .v2 m => m.fsLayers.map FsLayer.blobSum
  | .v2_2 m => m.layers.map Layer.digest

/-- File contents in the model: raw text, or a raw manifest body. -/
inductive Content
  | text (s : String)
  | json (p : Payload)
  deriving DecidableEq, Repr

/-- Modelled from the spec (§4.1): the local filesystem as the fetcher sees
it: the existing directories and, keyed by (directory, filename), file
contents. Newer `files` entries shadow older ones (overwrite semantics). -/
structure FS where
  dirs : List String
  files : List ((String × String) × Content)
  deriving DecidableEq, Repr

def FS.mkdir (fs : FS) (d : String) : FS :=
  if d ∈ fs.dirs then fs else ⟨d :: fs.dirs, fs.files⟩

def FS.write (fs : FS) (d n : String) (c : Content) : FS :=
  ⟨fs.dirs, ((d, n), c) :: fs.files⟩

def readFiles : List ((String × String) × Content) → String → String → Option Content
  | [], _, _ => none
  | (k, c) :: rest, d, n => if k = (d, n) then some c else readFiles rest d n

def FS.read (fs : FS) (d n : String) : Option Content :=
  readFiles fs.files d n

/-- Modelled from the spec (§4.3-§4.6): the external world the plugins
consult: HTTP responses (status, body), local files, what the external HDFS
client can deliver, and the docker registry's manifests and blobs. Registry
entries are `Except Err _` so distinct sub-fetches can fail with distinct
error kinds (§7). -/
structure World where
  http : URI → Nat × String
  localFiles : String → Option String
  hdfsFiles : String → Option String
  registryManifests : String → String → Except Err Payload
  registryBlobs : String → String → Except Err String

/-- Sub-fetch events of a registry fetch, for ordering statements (§5). -/
inductive Event
  | manifestFetch (repository reference : String)
  | blobFetch (digest : String)
  deriving DecidableEq, Repr

/-- The outcome of one fetch call: `result = none` on success, the error
kind on failure; the filesystem afterwards; the registry sub-fetch trace. -/
structure FetchResult where
  result : Option Err
  fs : FS
  trace : List Event
  deriving DecidableEq, Repr

/-- Modelled from the spec (§6): the last path segment of a path (stout
`Path::basename`), used to name the fetched file. -/
def basename (p : String) : String :=
  ⟨(p.toList.reverse.takeWhile (fun c => c ≠ '/')).reverse⟩

/-- Modelled from the spec (§4.3): the curl plugin's fetch: one GET; on
status 200 write the body under the last path segment; otherwise fail. The
plugin creates the destination directory (the tests fetch into directories
the harness never created, and succeed). -/
def curlFetch (w : World) (u : URI) (d : String) (fs : FS) : FetchResult :=
  if u.scheme = "http" ∨ u.scheme = "https" then
    let fs1 := fs.mkdir d
    let r := w.http u
    if r.1 = 200 then
      ⟨none, fs1.write d (basename u.path) (.text r.2), []⟩
    else
      ⟨some (if r.1 = 404 then .notFound else .transferError), fs1, []⟩
  else
    ⟨some .unsupportedScheme, fs, []⟩

/-- Modelled from the spec (§4.5): the copy plugin's fetch: copy the source
file into the destination directory under its basename, or fail when the
source does not exist. -/
def copyFetch (w : World) (u : URI) (d : String) (fs : FS) : FetchResult :=
  if u.scheme = "file" then
    let fs1 := fs.mkdir d
    match w.localFiles u.path with
    | some c => ⟨none, fs1.write d (basename u.path) (.text c), []⟩
    | none => ⟨some .notFound, fs1, []⟩
  else
    ⟨some .unsupportedScheme, fs, []⟩

/-- Modelled from the spec (§4.4): the external-client (HDFS) plugin's
fetch: delegate to the external client, fail when it exits non-zero. -/
def hadoopFetch (w : World) (u : URI) (d : String) (fs : FS) : FetchResult :=
  if u.scheme = "hdfs" then
    let fs1 := fs.mkdir d
    match w.hdfsFiles u.path with
    | some c => ⟨none, fs1.write d (basename u.path) (.text c), []⟩
    | none => ⟨some .transferError, fs1, []⟩
  else
    ⟨some .unsupportedScheme, fs, []⟩

/-- Modelled from the spec (§4.6): the registry manifest fetch: GET the
manifest, parse it (SchemaV2_2 first, SchemaV2 fallback), write the raw
body to `destinationDir/manifest`; fail when neither variant parses. -/
def dockerFetchManifest (w : World) (repository reference d : String) (fs : FS) : FetchResult :=
  let fs1 := fs.mkdir d
  match w.registryManifests repository reference with
  | .error e => ⟨some e, fs1, [.manifestFetch repository reference]⟩
  | .ok p =>
    match parseManifest p with
    | none => ⟨some .parseError, fs1, [.manifestFetch repository reference]⟩
    | some _ => ⟨none, fs1.write d "manifest" (.json p), [.manifestFetch repository reference]⟩

/-- Modelled from the spec (§4.6, §5): fetch the listed blobs into `d`, one
file per digest, stopping at the first failure and keeping the files already
written (fail-fast, no cleanup). -/
def fetchBlobs (w : World) (repository d : String) : FS → List String → FetchResult
  | fs, [] => ⟨none, fs, []⟩
  | fs, dg :: rest =>
    match w.registryBlobs repository dg with
    | .error e => ⟨some e, fs, [.blobFetch dg]⟩
    | .ok c =>
      let r := fetchBlobs w repository d (fs.write d dg (.text c)) rest
      ⟨r.result, r.fs, .blobFetch dg :: r.trace⟩

/-- Modelled from the spec (§4.6): the registry blob fetch: GET the blob,
write it to `destinationDir/<digest>`. -/
def dockerFetchBlob (w : World) (repository digest d : String) (fs : FS) : FetchResult :=
  let fs1 := fs.mkdir d
  match w.registryBlobs repository digest with
  | .error e => ⟨some e, fs1, [.blobFetch digest]⟩
  | .ok c => ⟨none, fs1.write d digest (.text c), [.blobFetch digest]⟩

/-- Modelled from the spec (§4.6): the composite image fetch: fetch and
parse the manifest, then fetch every blob of its layer list into the same
directory; fail-fast on the first sub-fetch failure. -/
def dockerFetchImage (w : World) (repository reference d : String) (fs : FS) : FetchResult :=
  let fs1 := fs.mkdir d
  match w.registryManifests repository reference with
  | .error e => ⟨some e, fs1, [.manifestFetch repository reference]⟩
  | .ok p =>
    match parseManifest p with
    | none => ⟨some .parseError, fs1, [.manifestFetch repository reference]⟩
    | some m =>
      let r := fetchBlobs w repository d (fs1.write d "manifest" (.json p)) (layerDigests m)
      ⟨r.result, r.fs, .manifestFetch repository reference :: r.trace⟩

/-- Modelled from the spec (§4.6): the docker plugin's fetch dispatches on
the URI sub-kind, after validating the scheme. -/
def dockerFetch (w : World) (u : URI) (d : String) (fs : FS) : FetchResult :=
  if u.scheme = "docker" then
    match u.dockerKind with
    | some .manifest => dockerFetchManifest w u.path (u.query.getD "") d fs
    | some .blob => dockerFetchBlob w u.path (u.query.getD "") d fs
    | some .image => dockerFetchImage w u.path (u.query.getD "") d fs
    | none => ⟨some .unsupportedScheme, fs, []⟩
  else
    ⟨some .unsupportedScheme, fs, []⟩

/-- Modelled from the spec (§4.2): the plugin contract: a stable name, a
pure scheme/sub-kind matching predicate, and the fetch operation. -/
structure Plugin where
  name : String
  accepts : URI → Bool
  fetch : World → URI → String → FS → FetchResult

def curlPlugin : Plugin :=
  ⟨"curl", fun u => u.scheme == "http" || u.scheme == "https", curlFetch⟩

def hadoopPlugin : Plugin :=
  ⟨"hadoop", fun u => u.scheme == "hdfs", hadoopFetch⟩

def copyPlugin : Plugin :=
  ⟨"copy", fun u => u.scheme == "file", copyFetch⟩

def dockerPlugin : Plugin :=
  ⟨"docker", fun u => u.scheme == "docker" && u.dockerKind.isSome, dockerFetch⟩

/-- Modelled from the spec (§4.1): the dispatcher owns the registered
plugins, in registration order. -/
structure Fetcher where
  plugins : List Plugin

/-- Modelled from the spec (§4.1): `create()` registers the built-in
plugins HTTP, external-client/HDFS, copy, registry, in that order. -/
def create : Fetcher :=
  ⟨[curlPlugin, hadoopPlugin, copyPlugin, dockerPlugin]⟩

/-- Modelled from the spec (§4.1): scan the plugins in order, invoke the
first whose `matches` accepts the URI. -/
def dispatch (w : World) (u : URI) (d : String) (fs : FS) : List Plugin → FetchResult
  | [] => ⟨some .unsupportedScheme, fs, []⟩
  | p :: rest => if p.accepts u then p.fetch w u d fs else dispatch w u d fs rest

/-- Modelled from the spec (§4.1): two-argument `fetch`: scheme-based
dispatch; fails with `UnsupportedScheme` when no plugin matches. -/
def Fetcher.fetch (f : Fetcher) (w : World) (u : URI) (d : String) (fs : FS) : FetchResult :=
  dispatch w u d fs f.plugins

/-- Modelled from the spec (§4.1): three-argument `fetch`: look the plugin
up by name, bypassing scheme matching; fails with `UnknownPlugin` when no
plugin has that name. -/
def Fetcher.fetchByName (f : Fetcher) (w : World) (u : URI) (d n : String) (fs : FS) : FetchResult :=
  match f.plugins.find? (fun p => p.name == n) with
  | some p => p.fetch w u d fs
  | none => ⟨some .unknownPlugin, fs, []⟩

namespace uri

/-- Modelled from the spec (§6): `uri::http(host, path, port)`. -/
def http (host pth : String) (port : Nat) : URI :=
  { scheme := "http", host := some host, port := some port, path := pth }

/-- Modelled from the spec (§6): `uri::file(path)`. -/
def file (pth : String) : URI :=
  { scheme := "file", path := pth }

/-- Modelled from the spec (§6): `uri::hdfs(path)`. -/
def hdfs (pth : String) : URI :=
  { scheme := "hdfs", path := pth }

namespace docker

/-- Modelled from the spec (§6): `uri::docker::manifest(repository,
reference, registryHost)`. -/
def manifest (repository reference registry : String) : URI :=
  { scheme := "docker", host := some registry, path := repository,
    query := some reference, dockerKind := some .manifest }

/-- Modelled from the spec (§6): `uri::docker::blob(repository, digest,
registryHost)`. -/
def blob (repository digest registry : String) : URI :=
  { scheme := "docker", host := some registry, path := repository,
    query := some digest, dockerKind := some .blob }

/-- Modelled from the spec (§6): `uri::docker::image(repository, reference,
registryHost)`. -/
def image (repository reference registry : String) : URI :=
  { scheme := "docker", host := some registry, path := repository,
    query := some reference, dockerKind := some .image }

end docker

end uri

/-! ## Helper lemmas about the filesystem model -/

theorem FS.mkdir_files (fs : FS) (d : String) : (fs.mkdir d).files = fs.files := by
  rw [FS.mkdir]; split <;> rfl

theorem FS.read_mkdir (fs : FS) (d d' n : String) :
    (fs.mkdir d).read d' n = fs.read d' n := by
  rw [FS.read, FS.mkdir_files, FS.read]

theorem FS.mem_mkdir (fs : FS) (d : String) : d ∈ (fs.mkdir d).dirs := by
  rw [FS.mkdir]; split
  · assumption
  · exact List.mem_cons_self _ _

theorem FS.mkdir_dirs_mono (fs : FS) (d d' : String) (h : d' ∈ fs.dirs) :
    d' ∈ (fs.mkdir d).dirs := by
  rw [FS.mkdir]; split
  · exact h
  · exact List.mem_cons_of_mem _ h

theorem FS.write_dirs (fs : FS) (d n : String) (c : Content) :
    (fs.write d n c).dirs = fs.dirs := rfl

theorem FS.read_write_self (fs : FS) (d n : String) (c : Content) :
    (fs.write d n c).read d n = some c := by
  rw [FS.write, FS.read, readFiles, if_pos rfl]

theorem FS.read_write_of_ne (fs : FS) (d n d' n' : String) (c : Content)
    (h : d' ≠ d ∨ n' ≠ n) :
    (fs.write d n c).read d' n' = fs.read d' n' := by
  rw [FS.write, FS.read, readFiles, if_neg, FS.read]
  intro he
  injection he with h1 h2
  rcases h with h | h
  · exact h h1.symm
  · exact h h2.symm

/-! ## Helper lemmas about the blob loop -/

theorem fetchBlobs_dirs (w : World) (repository d : String) :
    ∀ (l : List String) (fs : FS),
      (fetchBlobs w repository d fs l).fs.dirs = fs.dirs
  | [], _ => rfl
  | dg :: rest, fs => by
    rw [fetchBlobs]
    cases h : w.registryBlobs repository dg with
    | error e => rfl
    | ok c => exact fetchBlobs_dirs w repository d rest (fs.write d dg (.text c))

theorem fetchBlobs_trace (w : World) (repository d : String) :
    ∀ (l : List String) (fs : FS),
      ∀ e ∈ (fetchBlobs w repository d fs l).trace, ∃ dg, e = Event.blobFetch dg
  | [], _ => by intro e he; simp [fetchBlobs] at he
  | dg :: rest, fs => by
    intro e he
    rw [fetchBlobs] at he
    cases h : w.registryBlobs repository dg with
    | error er =>
      rw [h] at he
      simp at he
      exact ⟨dg, he⟩
    | ok c =>
      rw [h] at he
      simp at he
      rcases he with he | he
      · exact ⟨dg, he⟩
      · exact fetchBlobs_trace w repository d rest (fs.write d dg (.text c)) e he

theorem fetchBlobs_result_none_iff (w : World) (repository d : String) :
    ∀ (l : List String) (fs : FS),
      ((fetchBlobs w repository d fs l).result = none ↔
        ∀ dg ∈ l, ∃ c, w.registryBlobs repository dg = .ok c)
  | [], _ => by simp [fetchBlobs]
  | dg :: rest, fs => by
    rw [fetchBlobs]
    cases h : w.registryBlobs repository dg with
    | error er =>
      simp only []
      constructor
      · intro hc; cases hc
      · intro hall
        rcases hall dg (List.mem_cons_self _ _) with ⟨c, hc⟩
        rw [h] at hc; cases hc
    | ok c =>
      simp only []
      rw [fetchBlobs_result_none_iff w repository d rest (fs.write d dg (.text c))]
      constructor
      · intro hall x hx
        rcases List.mem_cons.mp hx with hx | hx
        · exact ⟨c, hx ▸ h⟩
        · exact hall x hx
      · intro hall x hx
        exact hall x (List.mem_cons_of_mem _ hx)

theorem fetchBlobs_read_preserved (w : World) (repository d : String) :
    ∀ (l : List String) (fs : FS) (d' n : String), (d' ≠ d ∨ n ∉ l) →
      (fetchBlobs w repository d fs l).fs.read d' n = fs.read d' n
  | [], _, _, _ => fun _ => rfl
  | dg :: rest, fs, d', n => by
    intro hn
    rw [fetchBlobs]
    cases h : w.registryBlobs repository dg with
    | error er => rfl
    | ok c =>
      have hrest : d' ≠ d ∨ n ∉ rest := by
        rcases hn with hn | hn
        · exact Or.inl hn
        · exact Or.inr (fun hc => hn (List.mem_cons_of_mem _ hc))
      have hdg : d' ≠ d ∨ n ≠ dg := by
        rcases hn with hn | hn
        · exact Or.inl hn
        · exact Or.inr (fun hc => hn (hc ▸ List.mem_cons_self _ _))
      rw [fetchBlobs_read_preserved w repository d rest (fs.write d dg (.text c)) d' n hrest,
        FS.read_write_of_ne fs d dg d' n (.text c) hdg]

theorem fetchBlobs_read_stable (w : World) (repository d : String) :
    ∀ (l : List String) (fs : FS) (n : String) (c : String),
      w.registryBlobs repository n = .ok c → fs.read d n = some (.text c) →
      (fetchBlobs w repository d fs l).fs.read d n = some (.text c)
  | [], _, _, _ => fun _ hr => hr
  | dg :: rest, fs, n, c => by
    intro hok hr
    rw [fetchBlobs]
    cases h : w.registryBlobs repository dg with
    | error er => exact hr
    | ok cd =>
      by_cases hdg : n = dg
      · subst hdg
        rw [hok] at h
        injection h with h
        subst h
        exact fetchBlobs_read_stable w repository d rest _ n c hok
          (FS.read_write_self fs d n (.text c))
      · exact fetchBlobs_read_stable w repository d rest _ n c hok
          ((FS.read_write_of_ne fs d dg d n (.text cd) (Or.inr hdg)).trans hr)

theorem fetchBlobs_read_of_all_ok (w : World) (repository d : String) :
    ∀ (l : List String) (fs : FS),
      (∀ dg ∈ l, ∃ c, w.registryBlobs repository dg = .ok c) →
      ∀ dg ∈ l, ∀ c, w.registryBlobs repository dg = .ok c →
        (fetchBlobs w repository d fs l).fs.read d dg = some (.text c)
  | [], _ => by intro _ dg hdg; cases hdg
  | x :: rest, fs => by
    intro hall dg hdg c hc
    rw [fetchBlobs]
    rcases hall x (List.mem_cons_self _ _) with ⟨cx, hcx⟩
    rw [hcx]
    simp only []
    rcases List.mem_cons.mp hdg with hdg | hdg
    · subst hdg
      rw [hc] at hcx
      injection hcx with hcx
      subst hcx
      exact fetchBlobs_read_stable w repository d rest _ dg c hc
        (FS.read_write_self fs d dg (.text c))
    · exact fetchBlobs_read_of_all_ok w repository d rest _
        (fun y hy => hall y (List.mem_cons_of_mem _ hy)) dg hdg c hc

theorem fetchBlobs_first_error (w : World) (repository d : String) :
    ∀ (pre : List String) (fs : FS) (dg : String) (post : List String) (e : Err),
      (∀ x ∈ pre, ∃ c, w.registryBlobs repository x = .ok c) →
      w.registryBlobs repository dg = .error e →
      (fetchBlobs w repository d fs (pre ++ dg :: post)).result = some e ∧
      (∀ x ∈ pre, ∀ c, w.registryBlobs repository x = .ok c →
        (fetchBlobs w repository d fs (pre ++ dg :: post)).fs.read d x = some (.text c))
  | [], fs, dg, post, e => by
    intro _ he
    rw [List.nil_append, fetchBlobs, he]
    exact ⟨rfl, by intro x hx; cases hx⟩
  | y :: pre, fs, dg, post, e => by
    intro hok he
    rcases hok y (List.mem_cons_self _ _) with ⟨cy, hcy⟩
    rw [List.cons_append, fetchBlobs, hcy]
    simp only []
    have ih := fetchBlobs_first_error w repository d pre (fs.write d y (.text cy)) dg post e
      (fun x hx => hok x (List.mem_cons_of_mem _ hx)) he
    refine ⟨ih.1, ?_⟩
    intro x hx c hc
    rcases List.mem_cons.mp hx with hx | hx
    · subst hx
      rw [hc] at hcy
      injection hcy with hcy
      subst hcy
      exact fetchBlobs_read_stable w repository d (pre ++ dg :: post) _ x c hc
        (FS.read_write_self fs d x (.text c))
    · exact ih.2 x hx c hc

/-! ## Helper lemmas about dispatch -/

theorem dispatch_eq_find (w : World) (u : URI) (d : String) (fs : FS) :
    ∀ l : List Plugin,
      dispatch w u d fs l =
        match l.find? (fun p => p.accepts u) with
        | some p => p.fetch w u d fs
        | none => ⟨some .unsupportedScheme, fs, []⟩
  | [] => rfl
  | p :: rest => by
    rw [dispatch, List.find?]
    cases h : p.accepts u with
    | true => simp
    | false => simpa using dispatch_eq_find w u d fs rest

/-- A concrete manifest payload, used by the witness theorems below. -/
def testPayload : Payload :=
  { schemaVersion := some 2,
    layers := some [⟨"mt", 1, "sha256:aa"⟩, ⟨"mt", 2, "sha256:bb"⟩] }

/-- A concrete world, used by the witness theorems below. -/
def testWorld : World where
  http := fun u => if u.path = "/TestHttpServer/test" then (200, "test") else (404, "")
  localFiles := fun p => if p = "/cwd/file" then some "abc" else none
  hdfsFiles := fun p => if p = "/cwd/file" then some "abc" else none
  registryManifests := fun repo ref =>
    if repo = "library/busybox" ∧ ref = "latest" then .ok testPayload
    else .error .notFound
  registryBlobs := fun repo dg =>
    if repo = "library/busybox" ∧ dg = "sha256:aa" then .ok "blob-a"
    else if repo = "library/busybox" ∧ dg = "sha256:bb" then .ok "blob-b"
    else .error .notFound

/-! ## C1: scheme-based dispatch -/

/-- C1: the two-argument `fetch(u, d)` invokes exactly the first registered
plugin whose matching predicate accepts `u` (matching being on scheme, and
for the registry plugin on the docker sub-kind, both inside `accepts`), and
fails with `UnsupportedScheme` when no registered plugin accepts `u`. -/
theorem fetch_first_matching_plugin (w : World) (u : URI) (d : String) (fs : FS) :
    (∀ p : Plugin, create.plugins.find? (fun q => q.accepts u) = some p →
      create.fetch w u d fs = p.fetch w u d fs) ∧
    (create.plugins.find? (fun q => q.accepts u) = none →
      create.fetch w u d fs = ⟨some .unsupportedScheme, fs, []⟩) := by
  constructor
  · intro p hp
    rw [Fetcher.fetch, dispatch_eq_find, hp]
  · intro hp
    rw [Fetcher.fetch, dispatch_eq_find, hp]

/-- Witness for C1: an `http` URI dispatches to the curl plugin; a URI of
unknown scheme fails with `UnsupportedScheme`. -/
theorem fetch_first_matching_plugin_witness :
    create.fetch testWorld (uri.http "h" "/TestHttpServer/test" 80) "dir" ⟨["dir"], []⟩ =
      curlPlugin.fetch testWorld (uri.http "h" "/TestHttpServer/test" 80) "dir" ⟨["dir"], []⟩ ∧
    create.fetch testWorld { scheme := "ftp", path := "/x" } "dir" ⟨["dir"], []⟩ =
      ⟨some .unsupportedScheme, ⟨["dir"], []⟩, []⟩ :=
  ⟨(fetch_first_matching_plugin testWorld (uri.http "h" "/TestHttpServer/test" 80)
      "dir" ⟨["dir"], []⟩).1 curlPlugin rfl,
   (fetch_first_matching_plugin testWorld { scheme := "ftp", path := "/x" }
      "dir" ⟨["dir"], []⟩).2 rfl⟩

/-! ## C2: explicit-name dispatch -/

/-- C2: the three-argument `fetch(u, d, n)` invokes the plugin registered
under name `n`, independently of registration order and of which plugins
would accept `u`; it fails with `UnknownPlugin` when no plugin is named `n`;
and a plugin whose predicate rejects `u` still fails on `u` even when
invoked directly (naming does not waive URI validity). -/
theorem fetch_by_name_dispatch (w : World) (u : URI) (d n : String) (fs : FS) :
    (∀ p : Plugin, p ∈ create.plugins → p.name = n →
      create.fetchByName w u d n fs = p.fetch w u d fs) ∧
    ((∀ p : Plugin, p ∈ create.plugins → p.name ≠ n) →
      create.fetchByName w u d n fs = ⟨some .unknownPlugin, fs, []⟩) ∧
    (∀ p : Plugin, p ∈ create.plugins → p.accepts u = false →
      (p.fetch w u d fs).result.isSome = true) := by
  refine ⟨?_, ?_, ?_⟩
  · intro p hp hn
    subst hn
    simp only [create, List.mem_cons, List.not_mem_nil, or_false] at hp
    rcases hp with h | h | h | h
    all_goals subst h
    all_goals rfl
  · intro h
    rw [Fetcher.fetchByName]
    have hnone : create.plugins.find? (fun p => p.name == n) = none := by
      rw [List.find?_eq_none]
      intro p hp
      simpa using h p hp
    rw [hnone]
  · intro p hp hacc
    simp only [create, List.mem_cons, List.not_mem_nil, or_false] at hp
    rcases hp with h | h | h | h
    · subst h
      simp only [curlPlugin, Bool.or_eq_false_iff, beq_eq_false_iff_ne, ne_eq] at hacc
      simp [curlPlugin, curlFetch, hacc.1, hacc.2]
    · subst h
      simp only [hadoopPlugin, beq_eq_false_iff_ne, ne_eq] at hacc
      simp [hadoopPlugin, hadoopFetch, hacc]
    · subst h
      simp only [copyPlugin, beq_eq_false_iff_ne, ne_eq] at hacc
      simp [copyPlugin, copyFetch, hacc]
    · subst h
      simp only [dockerPlugin, Bool.and_eq_false_iff, beq_eq_false_iff_ne, ne_eq] at hacc
      by_cases hs : u.scheme = "docker"
      · cases hk : u.dockerKind with
        | none => simp [dockerPlugin, dockerFetch, hs, hk]
        | some k =>
          rcases hacc with hacc | hacc
          · exact absurd hs hacc
          · rw [hk] at hacc
            simp at hacc
      · simp [dockerPlugin, dockerFetch, hs]

/-- Witness for C2: naming "copy" on an `http` URI invokes the copy plugin
even though curl would match; the copy plugin then rejects the URI; an
unregistered name fails with `UnknownPlugin`. -/
theorem fetch_by_name_dispatch_witness :
    create.fetchByName testWorld (uri.http "h" "/TestHttpServer/test" 80) "dir" "copy" ⟨["dir"], []⟩ =
      copyPlugin.fetch testWorld (uri.http "h" "/TestHttpServer/test" 80) "dir" ⟨["dir"], []⟩ ∧
    create.fetchByName testWorld (uri.http "h" "/TestHttpServer/test" 80) "dir" "nope" ⟨["dir"], []⟩ =
      ⟨some .unknownPlugin, ⟨["dir"], []⟩, []⟩ ∧
    (copyPlugin.fetch testWorld (uri.http "h" "/TestHttpServer/test" 80) "dir" ⟨["dir"], []⟩).result.isSome = true :=
  ⟨(fetch_by_name_dispatch testWorld (uri.http "h" "/TestHttpServer/test" 80) "dir" "copy"
      ⟨["dir"], []⟩).1 copyPlugin (by simp [create]) rfl,
   (fetch_by_name_dispatch testWorld (uri.http "h" "/TestHttpServer/test" 80) "dir" "nope"
      ⟨["dir"], []⟩).2.1 (by decide),
   (fetch_by_name_dispatch testWorld (uri.http "h" "/TestHttpServer/test" 80) "dir" "copy"
      ⟨["dir"], []⟩).2.2 copyPlugin (by simp [create]) (by decide)⟩

/-! ## Helper lemmas about the image fetch -/

theorem fetch_docker_image_eq (w : World) (repository reference registry d : String) (fs : FS) :
    create.fetch w (uri.docker.image repository reference registry) d fs =
      dockerFetchImage w repository reference d fs := rfl

theorem dockerFetchImage_manifest_error (w : World) (repository reference d : String)
    (fs : FS) (e : Err) (hm : w.registryManifests repository reference = .error e) :
    dockerFetchImage w repository reference d fs =
      ⟨some e, fs.mkdir d, [.manifestFetch repository reference]⟩ := by
  rw [dockerFetchImage, hm]

theorem dockerFetchImage_parse_error (w : World) (repository reference d : String)
    (fs : FS) (p : Payload) (hm : w.registryManifests repository reference = .ok p)
    (hp : parseManifest p = none) :
    dockerFetchImage w repository reference d fs =
      ⟨some .parseError, fs.mkdir d, [.manifestFetch repository reference]⟩ := by
  rw [dockerFetchImage, hm]
  simp only [hp]

theorem dockerFetchImage_parsed (w : World) (repository reference d : String)
    (fs : FS) (p : Payload) (m : ImageManifest)
    (hm : w.registryManifests repository reference = .ok p)
    (hp : parseManifest p = some m) :
    dockerFetchImage w repository reference d fs =
      ⟨(fetchBlobs w repository d ((fs.mkdir d).write d "manifest" (.json p)) (layerDigests m)).result,
       (fetchBlobs w repository d ((fs.mkdir d).write d "manifest" (.json p)) (layerDigests m)).fs,
       .manifestFetch repository reference ::
         (fetchBlobs w repository d ((fs.mkdir d).write d "manifest" (.json p)) (layerDigests m)).trace⟩ := by
  rw [dockerFetchImage, hm]
  simp only [hp]

/-! ## C3: composite image fetch -/

/-- C3: for a docker image fetch, the manifest fetch strictly precedes every
blob fetch (it heads the trace, and the tail is all blob events); the
composite succeeds iff the manifest fetch, its parse, and every blob listed
by the manifest succeed; on failure the first sub-fetch failure's error kind
is propagated (the manifest error, `ParseError`, or the first failing blob's
error), and files written by blobs that succeeded before the failure are
still readable afterwards (no cleanup). -/
theorem docker_image_fetch_composite (w : World) (repository reference registry d : String) (fs : FS) :
    (create.fetch w (uri.docker.image repository reference registry) d fs =
      dockerFetchImage w repository reference d fs) ∧
    ((dockerFetchImage w repository reference d fs).trace.head? =
      some (.manifestFetch repository reference)) ∧
    (∀ e ∈ (dockerFetchImage w repository reference d fs).trace.tail,
      ∃ dg, e = Event.blobFetch dg) ∧
    ((dockerFetchImage w repository reference d fs).result = none ↔
      ∃ p m, w.registryManifests repository reference = .ok p ∧
        parseManifest p = some m ∧
        ∀ dg ∈ layerDigests m, ∃ c, w.registryBlobs repository dg = .ok c) ∧
    (∀ e, w.registryManifests repository reference = .error e →
      (dockerFetchImage w repository reference d fs).result = some e) ∧
    (∀ p, w.registryManifests repository reference = .ok p → parseManifest p = none →
      (dockerFetchImage w repository reference d fs).result = some .parseError) ∧
    (∀ (p : Payload) (m : ImageManifest) (pre : List String) (dg : String)
        (post : List String) (e : Err),
      w.registryManifests repository reference = .ok p →
      parseManifest p = some m →
      layerDigests m = pre ++ dg :: post →
      (∀ x ∈ pre, ∃ c, w.registryBlobs repository x = .ok c) →
      w.registryBlobs repository dg = .error e →
      (dockerFetchImage w repository reference d fs).result = some e ∧
      (∀ x ∈ pre, ∀ c, w.registryBlobs repository x = .ok c →
        (dockerFetchImage w repository reference d fs).fs.read d x = some (.text c))) := by
  refine ⟨rfl, ?_, ?_, ?_, ?_, ?_, ?_⟩
  · cases hm : w.registryManifests repository reference with
    | error e =>
      rw [dockerFetchImage_manifest_error w repository reference d fs e hm]
      rfl
    | ok p =>
      cases hp : parseManifest p with
      | none =>
        rw [dockerFetchImage_parse_error w repository reference d fs p hm hp]
        rfl
      | some m =>
        rw [dockerFetchImage_parsed w repository reference d fs p m hm hp]
        rfl
  · intro e he
    cases hm : w.registryManifests repository reference with
    | error er =>
      rw [dockerFetchImage_manifest_error w repository reference d fs er hm] at he
      simp at he
    | ok p =>
      cases hp : parseManifest p with
      | none =>
        rw [dockerFetchImage_parse_error w repository reference d fs p hm hp] at he
        simp at he
      | some m =>
        rw [dockerFetchImage_parsed w repository reference d fs p m hm hp] at he
        simp at he
        exact fetchBlobs_trace w repository d (layerDigests m) _ e he
  · cases hm : w.registryManifests repository reference with
    | error e =>
      rw [dockerFetchImage_manifest_error w repository reference d fs e hm]
      constructor
      · intro hc; cases hc
      · rintro ⟨p, m, hp, -, -⟩
        exact Except.noConfusion hp
    | ok p =>
      cases hp : parseManifest p with
      | none =>
        rw [dockerFetchImage_parse_error w repository reference d fs p hm hp]
        constructor
        · intro hc; cases hc
        · rintro ⟨p', m', hp', hm', -⟩
          injection hp' with hpp
          subst hpp
          rw [hp] at hm'
          exact Option.noConfusion hm'
      | some m =>
        rw [dockerFetchImage_parsed w repository reference d fs p m hm hp]
        constructor
        · intro hres
          refine ⟨p, m, rfl, hp, ?_⟩
          exact (fetchBlobs_result_none_iff w repository d (layerDigests m) _).1 hres
        · rintro ⟨p', m', hp', hm', hall⟩
          injection hp' with hpp
          subst hpp
          rw [hp] at hm'
          injection hm' with hmm
          subst hmm
          exact (fetchBlobs_result_none_iff w repository d (layerDigests m) _).2 hall
  · intro e hm
    rw [dockerFetchImage_manifest_error w repository reference d fs e hm]
  · intro p hm hp
    rw [dockerFetchImage_parse_error w repository reference d fs p hm hp]
  · intro p m pre dg post e hm hp hl hpre he
    rw [dockerFetchImage_parsed w repository reference d fs p m hm hp]
    simp only []
    rw [hl]
    exact fetchBlobs_first_error w repository d pre _ dg post e hpre he

/-- A world whose registry has only the first blob of `testPayload`, used by
the C3 witness. -/
def testWorldFail : World :=
  { testWorld with
    registryBlobs := fun repo dg =>
      if repo = "library/busybox" ∧ dg = "sha256:aa" then .ok "blob-a"
      else .error .transferError }

/-- Witness for C3: with the second blob failing as `TransferError`, the
composite image fetch fails with exactly that kind and the first blob's
file survives. -/
theorem docker_image_fetch_composite_witness :
    (dockerFetchImage testWorldFail "library/busybox" "latest" "dir" ⟨[], []⟩).result =
      some .transferError ∧
    (dockerFetchImage testWorldFail "library/busybox" "latest" "dir" ⟨[], []⟩).fs.read
      "dir" "sha256:aa" = some (.text "blob-a") := by
  have h := (docker_image_fetch_composite testWorldFail "library/busybox" "latest"
    "registry-1.docker.io" "dir" ⟨[], []⟩).2.2.2.2.2.2 testPayload
    (.v2_2 ⟨2, [⟨"mt", 1, "sha256:aa"⟩, ⟨"mt", 2, "sha256:bb"⟩]⟩)
    ["sha256:aa"] "sha256:bb" [] .transferError rfl rfl rfl
    (by
      intro x hx
      simp only [List.mem_singleton] at hx
      subst hx
      exact ⟨"blob-a", rfl⟩)
    rfl
  exact ⟨h.1, h.2 "sha256:aa" (List.mem_singleton.mpr rfl) "blob-a" rfl⟩

/-! ## C4: manifest parsing -/

/-- C4: manifest parsing attempts the SchemaV2_2 variant first and falls
back to SchemaV2 only when the first does not structurally match; a payload
with `schemaVersion = 2` and a `layers` array parses as SchemaV2_2 with
schema version 2; a payload carrying `fsLayers` (with its `name` and `tag`
fields) and no `layers` parses as SchemaV2 with matching name and tag; and
parsing fails when neither variant matches. -/
theorem manifest_parse_variants (p : Payload) :
    (∀ m, parse_v2_2 p = some m → parseManifest p = some (.v2_2 m)) ∧
    (parse_v2_2 p = none → parseManifest p = (parse_v2 p).map .v2) ∧
    (∀ ls, p.schemaVersion = some 2 → p.layers = some ls →
      ∃ m, parseManifest p = some (.v2_2 m) ∧ m.schemaVersion = 2 ∧ m.layers = ls) ∧
    (∀ n t fl, p.fsLayers = some fl → p.layers = none →
      p.name = some n → p.tag = some t →
      ∃ m, parseManifest p = some (.v2 m) ∧ m.name = n ∧ m.tag = t ∧ m.fsLayers = fl) ∧
    (parse_v2_2 p = none → parse_v2 p = none → parseManifest p = none) := by
  refine ⟨?_, ?_, ?_, ?_, ?_⟩
  · intro m hm
    rw [parseManifest, hm]
  · intro hm
    rw [parseManifest, hm]
  · intro ls hs hl
    refine ⟨⟨2, ls⟩, ?_, rfl, rfl⟩
    have h22 : parse_v2_2 p = some ⟨2, ls⟩ := by
      rw [parse_v2_2, hs, hl]
    rw [parseManifest, h22]
  · intro n t fl hfl hl hn ht
    have h22 : parse_v2_2 p = none := by
      rw [parse_v2_2, hl]
      cases p.schemaVersion with
      | none => rfl
      | some v => cases v with
        | zero => rfl
        | succ v => cases v with
          | zero => rfl
          | succ v => cases v <;> rfl
    refine ⟨⟨n, t, p.schemaVersion.getD 1, fl⟩, ?_, rfl, rfl, rfl⟩
    have h2 : parse_v2 p = some ⟨n, t, p.schemaVersion.getD 1, fl⟩ := by
      rw [parse_v2, hn, ht, hfl]
    rw [parseManifest, h22, h2]
    rfl
  · intro h22 h2
    rw [parseManifest, h22, h2]
    rfl

/-- A SchemaV2 payload, used by the C4 witness. -/
def testPayloadV2 : Payload :=
  { schemaVersion := some 1, name := some "library/busybox", tag := some "latest",
    fsLayers := some [⟨"sha256:aa"⟩] }

/-- Witness for C4: the SchemaV2_2 payload parses as the V2_2 variant, and
the `fsLayers` payload parses as the V2 variant with its name and tag. -/
theorem manifest_parse_variants_witness :
    parseManifest testPayload =
      some (.v2_2 ⟨2, [⟨"mt", 1, "sha256:aa"⟩, ⟨"mt", 2, "sha256:bb"⟩]⟩) ∧
    (∃ m, parseManifest testPayloadV2 = some (.v2 m) ∧
      m.name = "library/busybox" ∧ m.tag = "latest" ∧ m.fsLayers = [⟨"sha256:aa"⟩]) :=
  ⟨(manifest_parse_variants testPayload).1 _ rfl,
   (manifest_parse_variants testPayloadV2).2.2.2.1 "library/busybox" "latest"
     [⟨"sha256:aa"⟩] rfl rfl rfl rfl⟩

/-! ## C5: files produced by a successful image fetch -/

/-- C5: a successful image fetch into a directory that held no files leaves
a `manifest` file holding the raw manifest body, one file per layer digest
holding that blob (named exactly by the digest string), and nothing else:
a name is readable in the directory iff it is `manifest` or a layer digest.
(`layerDigests` is `layers[].digest` for SchemaV2_2 and `fsLayers[].blobSum`
for SchemaV2, so both variants are covered; digests carry their
`algorithm:` prefix and hence never collide with the name `manifest`.) -/
theorem docker_image_fetch_files (w : World) (repository reference registry d : String)
    (fs : FS) (p : Payload) (m : ImageManifest)
    (hm : w.registryManifests repository reference = .ok p)
    (hp : parseManifest p = some m)
    (hok : ∀ dg ∈ layerDigests m, ∃ c, w.registryBlobs repository dg = .ok c)
    (hdg : ∀ dg ∈ layerDigests m, dg ≠ "manifest")
    (hempty : ∀ n, fs.read d n = none) :
    ((create.fetch w (uri.docker.image repository reference registry) d fs).result = none) ∧
    ((create.fetch w (uri.docker.image repository reference registry) d fs).fs.read d "manifest" =
      some (.json p)) ∧
    (∀ dg ∈ layerDigests m, ∀ c, w.registryBlobs repository dg = .ok c →
      (create.fetch w (uri.docker.image repository reference registry) d fs).fs.read d dg =
        some (.text c)) ∧
    (∀ n, ((create.fetch w (uri.docker.image repository reference registry) d fs).fs.read d n).isSome
      ↔ (n = "manifest" ∨ n ∈ layerDigests m)) := by
  have hroute : create.fetch w (uri.docker.image repository reference registry) d fs =
      dockerFetchImage w repository reference d fs := rfl
  rw [hroute, dockerFetchImage_parsed w repository reference d fs p m hm hp]
  simp only []
  have hmanifest_notmem : "manifest" ∉ layerDigests m := fun hc => hdg "manifest" hc rfl
  refine ⟨?_, ?_, ?_, ?_⟩
  · rw [fetchBlobs_result_none_iff]
    exact hok
  · rw [fetchBlobs_read_preserved w repository d (layerDigests m) _ d "manifest"
      (Or.inr hmanifest_notmem)]
    exact FS.read_write_self _ d "manifest" (.json p)
  · intro dg hdgm c hc
    exact fetchBlobs_read_of_all_ok w repository d (layerDigests m) _ hok dg hdgm c hc
  · intro n
    constructor
    · intro hsome
      by_cases hn : n = "manifest" ∨ n ∈ layerDigests m
      · exact hn
      · push_neg at hn
        rw [fetchBlobs_read_preserved w repository d (layerDigests m) _ d n (Or.inr hn.2),
          FS.read_write_of_ne _ d "manifest" d n (.json p) (Or.inr hn.1),
          FS.read_mkdir, hempty n] at hsome
        cases hsome
    · intro hn
      rcases hn with hn | hn
      · subst hn
        rw [fetchBlobs_read_preserved w repository d (layerDigests m) _ d "manifest"
          (Or.inr hmanifest_notmem), FS.read_write_self]
        rfl
      · rcases hok n hn with ⟨c, hc⟩
        rw [fetchBlobs_read_of_all_ok w repository d (layerDigests m) _ hok n hn c hc]
        rfl

/-- Witness for C5: the two-layer SchemaV2_2 image in the test world fetched
into an empty directory leaves exactly `manifest`, `sha256:aa`, `sha256:bb`. -/
theorem docker_image_fetch_files_witness :
    (create.fetch testWorld (uri.docker.image "library/busybox" "latest" "registry-1.docker.io")
      "dir" ⟨[], []⟩).fs.read "dir" "manifest" = some (.json testPayload) ∧
    ((create.fetch testWorld (uri.docker.image "library/busybox" "latest" "registry-1.docker.io")
      "dir" ⟨[], []⟩).fs.read "dir" "sha256:bb").isSome = true := by
  have h := docker_image_fetch_files testWorld "library/busybox" "latest"
    "registry-1.docker.io" "dir" ⟨[], []⟩ testPayload
    (.v2_2 ⟨2, [⟨"mt", 1, "sha256:aa"⟩, ⟨"mt", 2, "sha256:bb"⟩]⟩) rfl rfl
    (by
      intro dg hdg
      simp only [layerDigests, List.map, List.mem_cons, List.not_mem_nil, or_false] at hdg
      rcases hdg with h | h <;> subst h
      · exact ⟨"blob-a", rfl⟩
      · exact ⟨"blob-b", rfl⟩)
    (by
      intro dg hdg
      simp only [layerDigests, List.map, List.mem_cons, List.not_mem_nil, or_false] at hdg
      rcases hdg with h | h <;> subst h <;> decide)
    (fun _ => rfl)
  refine ⟨h.2.1, ?_⟩
  rw [(h.2.2.2 "sha256:bb").2]
  simp [layerDigests]

/-! ## Helper lemmas about the simple plugins -/

theorem curlFetch_http_ok (w : World) (u : URI) (d : String) (fs : FS) (body : String)
    (hs : u.scheme = "http" ∨ u.scheme = "https") (hb : w.http u = (200, body)) :
    curlFetch w u d fs = ⟨none, (fs.mkdir d).write d (basename u.path) (.text body), []⟩ := by
  rw [curlFetch, if_pos hs]
  simp [hb]

theorem curlFetch_http_err (w : World) (u : URI) (d : String) (fs : FS) (st : Nat) (body : String)
    (hs : u.scheme = "http" ∨ u.scheme = "https") (hb : w.http u = (st, body)) (hst : st ≠ 200) :
    curlFetch w u d fs =
      ⟨some (if st = 404 then .notFound else .transferError), fs.mkdir d, []⟩ := by
  rw [curlFetch, if_pos hs]
  simp [hb, hst]

theorem copyFetch_ok (w : World) (u : URI) (d : String) (fs : FS) (c : String)
    (hs : u.scheme = "file") (hc : w.localFiles u.path = some c) :
    copyFetch w u d fs = ⟨none, (fs.mkdir d).write d (basename u.path) (.text c), []⟩ := by
  rw [copyFetch, if_pos hs]
  simp [hc]

theorem copyFetch_missing (w : World) (u : URI) (d : String) (fs : FS)
    (hs : u.scheme = "file") (hc : w.localFiles u.path = none) :
    copyFetch w u d fs = ⟨some .notFound, fs.mkdir d, []⟩ := by
  rw [copyFetch, if_pos hs]
  simp [hc]

theorem hadoopFetch_ok (w : World) (u : URI) (d : String) (fs : FS) (c : String)
    (hs : u.scheme = "hdfs") (hc : w.hdfsFiles u.path = some c) :
    hadoopFetch w u d fs = ⟨none, (fs.mkdir d).write d (basename u.path) (.text c), []⟩ := by
  rw [hadoopFetch, if_pos hs]
  simp [hc]

theorem hadoopFetch_missing (w : World) (u : URI) (d : String) (fs : FS)
    (hs : u.scheme = "hdfs") (hc : w.hdfsFiles u.path = none) :
    hadoopFetch w u d fs = ⟨some .transferError, fs.mkdir d, []⟩ := by
  rw [hadoopFetch, if_pos hs]
  simp [hc]

/-! ## C8: HTTP plugin scenario -/

/-- C8: through the dispatcher, fetching an `http` URI whose server answers
200 with some body succeeds and leaves a file named by the URI's last path
segment holding exactly that body; when the server answers anything other
than 200 (e.g. 404), the fetch fails and no file is written (the file list
is unchanged). -/
theorem http_fetch_scenario (w : World) (host pth : String) (port : Nat) (d : String) (fs : FS) :
    (∀ body, w.http (uri.http host pth port) = (200, body) →
      (create.fetch w (uri.http host pth port) d fs).result = none ∧
      (create.fetch w (uri.http host pth port) d fs).fs.read d (basename pth) =
        some (.text body)) ∧
    (∀ st body, w.http (uri.http host pth port) = (st, body) → st ≠ 200 →
      (create.fetch w (uri.http host pth port) d fs).result.isSome = true ∧
      (create.fetch w (uri.http host pth port) d fs).fs.files = fs.files) := by
  have hroute : create.fetch w (uri.http host pth port) d fs =
      curlFetch w (uri.http host pth port) d fs := rfl
  constructor
  · intro body hb
    rw [hroute, curlFetch_http_ok w (uri.http host pth port) d fs body (Or.inl rfl) hb]
    exact ⟨rfl, FS.read_write_self _ d (basename pth) (.text body)⟩
  · intro st body hb hst
    rw [hroute, curlFetch_http_err w (uri.http host pth port) d fs st body (Or.inl rfl) hb hst]
    exact ⟨rfl, FS.mkdir_files fs d⟩

/-- Witness for C8: in the test world the `/TestHttpServer/test` URI yields
the file `test` with body `test`; another path yields 404 and writes
nothing. -/
theorem http_fetch_scenario_witness :
    (create.fetch testWorld (uri.http "h" "/TestHttpServer/test" 80) "dir" ⟨[], []⟩).fs.read
      "dir" (basename "/TestHttpServer/test") = some (.text "test") ∧
    (create.fetch testWorld (uri.http "h" "/other" 80) "dir" ⟨[], []⟩).result.isSome = true :=
  ⟨((http_fetch_scenario testWorld "h" "/TestHttpServer/test" 80 "dir" ⟨[], []⟩).1
      "test" rfl).2,
   ((http_fetch_scenario testWorld "h" "/other" 80 "dir" ⟨[], []⟩).2
      404 "" rfl (by decide)).1⟩

/-! ## C9: copy plugin round trip -/

/-- C9: through the dispatcher, fetching the file URI of a local file with
content `c` into `d` succeeds and leaves the file `d/basename(p)` with
content exactly `c`; fetching a file URI whose source path does not exist
fails. -/
theorem copy_fetch_roundtrip (w : World) (p d : String) (fs : FS) :
    (∀ c, w.localFiles p = some c →
      (create.fetch w (uri.file p) d fs).result = none ∧
      (create.fetch w (uri.file p) d fs).fs.read d (basename p) = some (.text c)) ∧
    (w.localFiles p = none →
      (create.fetch w (uri.file p) d fs).result.isSome = true) := by
  have hroute : create.fetch w (uri.file p) d fs = copyFetch w (uri.file p) d fs := rfl
  constructor
  · intro c hc
    rw [hroute, copyFetch_ok w (uri.file p) d fs c rfl hc]
    exact ⟨rfl, FS.read_write_self _ d (basename p) (.text c)⟩
  · intro hc
    rw [hroute, copyFetch_missing w (uri.file p) d fs rfl hc]
    rfl

/-- Witness for C9: the test world's `/cwd/file` with content `abc` round
trips; a missing source fails. -/
theorem copy_fetch_roundtrip_witness :
    (create.fetch testWorld (uri.file "/cwd/file") "dir" ⟨[], []⟩).fs.read
      "dir" (basename "/cwd/file") = some (.text "abc") ∧
    (create.fetch testWorld (uri.file "/cwd/non-exist") "dir" ⟨[], []⟩).result.isSome = true :=
  ⟨((copy_fetch_roundtrip testWorld "/cwd/file" "dir" ⟨[], []⟩).1 "abc" rfl).2,
   (copy_fetch_roundtrip testWorld "/cwd/non-exist" "dir" ⟨[], []⟩).2 rfl⟩

/-! ## C10: destination-directory effects -/

theorem dockerFetchManifest_dirs (w : World) (repository reference d : String) (fs : FS) :
    (dockerFetchManifest w repository reference d fs).fs.dirs = (fs.mkdir d).dirs := by
  rw [dockerFetchManifest]
  split
  · rfl
  · split
    · rfl
    · rfl

theorem dockerFetchBlob_dirs (w : World) (repository digest d : String) (fs : FS) :
    (dockerFetchBlob w repository digest d fs).fs.dirs = (fs.mkdir d).dirs := by
  rw [dockerFetchBlob]
  split
  · rfl
  · rfl

theorem dockerFetchImage_dirs (w : World) (repository reference d : String) (fs : FS) :
    (dockerFetchImage w repository reference d fs).fs.dirs = (fs.mkdir d).dirs := by
  cases hm : w.registryManifests repository reference with
  | error e => rw [dockerFetchImage_manifest_error w repository reference d fs e hm]
  | ok p =>
    cases hp : parseManifest p with
    | none => rw [dockerFetchImage_parse_error w repository reference d fs p hm hp]
    | some m =>
      rw [dockerFetchImage_parsed w repository reference d fs p m hm hp]
      exact fetchBlobs_dirs w repository d (layerDigests m) _

theorem plugin_fetch_creates_dir (p : Plugin) (hp : p ∈ create.plugins)
    (w : World) (u : URI) (d : String) (fs : FS)
    (h : (p.fetch w u d fs).result = none) : d ∈ (p.fetch w u d fs).fs.dirs := by
  simp only [create, List.mem_cons, List.not_mem_nil, or_false] at hp
  rcases hp with hp | hp | hp | hp
  all_goals subst hp
  · show d ∈ (curlFetch w u d fs).fs.dirs
    replace h : (curlFetch w u d fs).result = none := h
    by_cases hs : u.scheme = "http" ∨ u.scheme = "https"
    · have hb : w.http u = ((w.http u).1, (w.http u).2) := rfl
      by_cases h200 : (w.http u).1 = 200
      · rw [curlFetch_http_ok w u d fs (w.http u).2 hs (by rw [← h200])]
        exact FS.mem_mkdir fs d
      · rw [curlFetch_http_err w u d fs (w.http u).1 (w.http u).2 hs hb h200] at h
        exact Option.noConfusion h
    · have : (curlFetch w u d fs).result = some .unsupportedScheme := by
        rw [curlFetch, if_neg hs]
      rw [this] at h
      exact Option.noConfusion h
  · show d ∈ (hadoopFetch w u d fs).fs.dirs
    replace h : (hadoopFetch w u d fs).result = none := h
    by_cases hs : u.scheme = "hdfs"
    · cases hc : w.hdfsFiles u.path with
      | some c =>
        rw [hadoopFetch_ok w u d fs c hs hc]
        exact FS.mem_mkdir fs d
      | none =>
        rw [hadoopFetch_missing w u d fs hs hc] at h
        exact Option.noConfusion h
    · have : (hadoopFetch w u d fs).result = some .unsupportedScheme := by
        rw [hadoopFetch, if_neg hs]
      rw [this] at h
      exact Option.noConfusion h
  · show d ∈ (copyFetch w u d fs).fs.dirs
    replace h : (copyFetch w u d fs).result = none := h
    by_cases hs : u.scheme = "file"
    · cases hc : w.localFiles u.path with
      | some c =>
        rw [copyFetch_ok w u d fs c hs hc]
        exact FS.mem_mkdir fs d
      | none =>
        rw [copyFetch_missing w u d fs hs hc] at h
        exact Option.noConfusion h
    · have : (copyFetch w u d fs).result = some .unsupportedScheme := by
        rw [copyFetch, if_neg hs]
      rw [this] at h
      exact Option.noConfusion h
  · show d ∈ (dockerFetch w u d fs).fs.dirs
    replace h : (dockerFetch w u d fs).result = none := h
    by_cases hs : u.scheme = "docker"
    · cases hk : u.dockerKind with
      | none =>
        rw [dockerFetch, if_pos hs, hk] at h
        exact Option.noConfusion h
      | some k =>
        rw [dockerFetch, if_pos hs, hk]
        cases k with
        | manifest =>
          rw [dockerFetchManifest_dirs]
          exact FS.mem_mkdir fs d
        | blob =>
          rw [dockerFetchBlob_dirs]
          exact FS.mem_mkdir fs d
        | image =>
          rw [dockerFetchImage_dirs]
          exact FS.mem_mkdir fs d
    · rw [dockerFetch, if_neg hs] at h
      exact Option.noConfusion h

/-- C10 counterexample: the claim "the destination directory must already
exist before the call" is false of the code: exactly as in the tests
(`CopyFetcherPluginTest.FetchExistingFile`, `HadoopFetcherPluginTest`), a
fetch into a directory absent from the filesystem succeeds — the selected
plugin creates it. -/
theorem fetch_no_preexisting_dir_counterexample :
    (create.fetch testWorld (uri.file "/cwd/file") "dir" ⟨[], []⟩).result = none ∧
    ("dir" ∈ (⟨[], []⟩ : FS).dirs → False) :=
  ⟨rfl, by simp⟩

/-- C10 amended: the destination directory need not pre-exist; whenever a
dispatched fetch succeeds, the destination directory exists afterwards
(the selected plugin creates it if missing), and the dispatcher itself
never creates or deletes anything: when routing fails — no matching plugin,
or an unknown plugin name — the filesystem is returned unchanged. -/
theorem fetch_dir_effects_amended (w : World) (u : URI) (d n : String) (fs : FS) :
    ((create.fetch w u d fs).result = none → d ∈ (create.fetch w u d fs).fs.dirs) ∧
    (create.plugins.find? (fun p => p.accepts u) = none →
      (create.fetch w u d fs).fs = fs) ∧
    (create.plugins.find? (fun p => p.name == n) = none →
      (create.fetchByName w u d n fs).fs = fs) := by
  refine ⟨?_, ?_, ?_⟩
  · intro hres
    rw [Fetcher.fetch, dispatch_eq_find] at hres ⊢
    cases hfind : create.plugins.find? (fun p => p.accepts u) with
    | none =>
      rw [hfind] at hres
      exact Option.noConfusion hres
    | some p =>
      rw [hfind] at hres
      exact plugin_fetch_creates_dir p (List.mem_of_find?_eq_some hfind) w u d fs hres
  · intro hfind
    rw [Fetcher.fetch, dispatch_eq_find, hfind]
  · intro hfind
    rw [Fetcher.fetchByName, hfind]

/-- Witness for C10's amended form: a successful copy fetch leaves the
(previously missing) destination directory in place; an unmatched scheme
and an unknown name leave the filesystem untouched. -/
theorem fetch_dir_effects_amended_witness :
    "dir" ∈ (create.fetch testWorld (uri.file "/cwd/file") "dir" ⟨[], []⟩).fs.dirs ∧
    (create.fetch testWorld { scheme := "ftp", path := "/x" } "dir" ⟨[], []⟩).fs = ⟨[], []⟩ ∧
    (create.fetchByName testWorld (uri.file "/cwd/file") "dir" "nope" ⟨[], []⟩).fs = ⟨[], []⟩ :=
  ⟨(fetch_dir_effects_amended testWorld (uri.file "/cwd/file") "dir" "nope" ⟨[], []⟩).1 rfl,
   (fetch_dir_effects_amended testWorld { scheme := "ftp", path := "/x" } "dir" "nope"
      ⟨[], []⟩).2.1 rfl,
   (fetch_dir_effects_amended testWorld (uri.file "/cwd/file") "dir" "nope" ⟨[], []⟩).2.2 rfl⟩

end Mesos
